import Mathlib

/-!
Shallow embedding of the two iOS text-input widget adapters of this
repository: `TextInput` (src/iOS/src/toga_iOS/widgets/textinput.py) and
`MultilineTextInput` (src/iOS/src/toga_iOS/widgets/multilinetextinput.py).

Native UIKit controls are modelled as records of the fields the adapters
read and write; delegate callbacks and setters become state transformers;
calls forwarded to the abstract widget interface are recorded as event
lists; setters that raise `ValueError` return `Except String`.
-/

/-- Calls the adapters forward to the abstract widget interface. -/
inductive Event where
  | onGainFocus
  | onLoseFocus
  | onConfirm
  | valueChanged
  | onChange
deriving DecidableEq

/-- Dynamically-typed Python values reaching the behaviour-flag setters:
a bool, a str, or anything else (the setters inspect nothing more). -/
inductive PyValue where
  | bool (b : Bool)
  | str (t : String)
  | other
deriving DecidableEq

/-- True exactly on Python values satisfying isinstance(value, bool). -/
def isPyBool : PyValue → Bool
  | PyValue.bool _ => true
  | _ => false

/-- Text alignment values (toga constants LEFT, RIGHT, CENTER, JUSTIFY). -/
inductive TextAlign where
  | left
  | right
  | center
  | justify
deriving DecidableEq

/-- Native autocorrection setting (UITextAutocorrectionType). -/
inductive UITextAutocorrectionType where
  | Default
  | No
  | Yes
deriving DecidableEq

/-- Native spell-checking setting (UITextSpellCheckingType). -/
inductive UITextSpellCheckingType where
  | Default
  | No
  | Yes
deriving DecidableEq

/-- Native autocapitalization setting (UITextAutocapitalizationType). -/
inductive UITextAutocapitalizationType where
  | none
  | Words
  | Sentences
  | AllCharacters
deriving DecidableEq

/-- Is an `Except` result a success? -/
def okB {α : Type} : Except String α → Bool
  | Except.ok _ => true
  | Except.error _ => false

/-- Python's `str.lower()`: lowercase the string character by
character. -/
def pyLower (t : String) : String := String.mk (t.data.map Char.toLower)

/-- The error message raised by `set_autocapitalization_type` on both
adapters, naming the accepted values. -/
def autocapMessage : String :=
  "value can only be \"none\", \"words\", \"sentences\" or \"allcharacters\""

/-- The error message raised by the boolean flag setters. -/
def boolMessage : String := "value can only be a boolean"

/-- State of the single-line adapter: the native UITextField fields the
code touches, plus the error indicator UILabel (its hidden flag and its
text alignment). -/
structure TextInputState where
  text : String
  placeholder : Option String
  enabled : Bool
  errorHidden : Bool
  textAlignment : TextAlign
  errorAlignment : TextAlign
  autocorrectionType : UITextAutocorrectionType
  spellCheckingType : UITextSpellCheckingType
  autocapitalizationType : UITextAutocapitalizationType
deriving DecidableEq

namespace TextInput

/-- `TextInput.create`: fresh UITextField (empty text, no placeholder,
enabled, default Sentences autocapitalization, natural/left alignment),
autocorrect and spellcheck forced on, and the error indicator label
created hidden by `add_error_label`. -/
def create : TextInputState :=
  { text := ""
  , placeholder := Option.none
  , enabled := true
  , errorHidden := true
  , textAlignment := TextAlign.left
  , errorAlignment := TextAlign.left
  , autocorrectionType := UITextAutocorrectionType.Yes
  , spellCheckingType := UITextSpellCheckingType.Yes
  , autocapitalizationType := UITextAutocapitalizationType.Sentences }

/-- `TextInput.get_readonly`: `not self.native.isEnabled()`. -/
def get_readonly (s : TextInputState) : Bool := !s.enabled

/-- `TextInput.set_readonly`: `self.native.enabled = not value`. -/
def set_readonly (value : Bool) (s : TextInputState) : TextInputState :=
  { s with enabled := !value }

/-- `TextInput.get_placeholder`:
`str(self.native.placeholder if self.native.placeholder else "")` —
an absent or falsy native placeholder is normalized to `""`. -/
def get_placeholder (s : TextInputState) : String :=
  match s.placeholder with
  | Option.none => ""
  | Option.some p => if p.isEmpty then "" else p

/-- `TextInput.set_placeholder`: assigns the native placeholder. The
source comment records that UIKit transparently converts `""` into None,
so the native field stores an absent value for the empty string. -/
def set_placeholder (value : String) (s : TextInputState) : TextInputState :=
  { s with placeholder :=
      if value.isEmpty then Option.none else Option.some value }

/-- `TextInput.get_value`: `str(self.native.text)`. -/
def get_value (s : TextInputState) : String := s.text

/-- `TextInput.set_value`: assigns the native text, then calls the
interface value-changed hook once (programmatic assignment does not fire
the native editing-changed control event). -/
def set_value (value : String) (s : TextInputState) :
    TextInputState × List Event :=
  ({ s with text := value }, [Event.valueChanged])

/-- `TextInput.set_text_align`: sets the native alignment; the error
indicator goes LEFT when the value is RIGHT and RIGHT otherwise. -/
def set_text_align (value : TextAlign) (s : TextInputState) : TextInputState :=
  { s with textAlignment := value
         , errorAlignment :=
             if value = TextAlign.right then TextAlign.left
             else TextAlign.right }

/-- `TextInput.set_error`: shows the error indicator; the message
argument is unused (documented limitation). -/
def set_error (_error_message : String) (s : TextInputState) : TextInputState :=
  { s with errorHidden := false }

/-- `TextInput.clear_error`: hides the error indicator. -/
def clear_error (s : TextInputState) : TextInputState :=
  { s with errorHidden := true }

/-- `TextInput.is_valid`: `self.error_label.isHidden()`. -/
def is_valid (s : TextInputState) : Bool := s.errorHidden

/-- `TextInput.set_autocorrect`: bool maps to Yes/No, anything else
raises ValueError. -/
def set_autocorrect (value : PyValue) (s : TextInputState) :
    Except String TextInputState :=
  match value with
  | PyValue.bool b =>
      if b then
        Except.ok { s with autocorrectionType := UITextAutocorrectionType.Yes }
      else
        Except.ok { s with autocorrectionType := UITextAutocorrectionType.No }
  | _ => Except.error boolMessage

/-- `TextInput.get_autocorrect`: true iff the native setting is Yes. -/
def get_autocorrect (s : TextInputState) : Bool :=
  if s.autocorrectionType = UITextAutocorrectionType.Yes then true else false

/-- `TextInput.set_spellchecker`: bool maps to Yes/No, anything else
raises ValueError. -/
def set_spellchecker (value : PyValue) (s : TextInputState) :
    Except String TextInputState :=
  match value with
  | PyValue.bool b =>
      if b then
        Except.ok { s with spellCheckingType := UITextSpellCheckingType.Yes }
      else
        Except.ok { s with spellCheckingType := UITextSpellCheckingType.No }
  | _ => Except.error boolMessage

/-- `TextInput.get_spellchecker`: true iff the native setting is Yes. -/
def get_spellchecker (s : TextInputState) : Bool :=
  if s.spellCheckingType = UITextSpellCheckingType.Yes then true else false

/-- `TextInput.set_autocapitalization_type`: a str whose `.lower()` is
one of the four accepted names maps to the native enum; any other str
and any non-str raises ValueError with `autocapMessage`. -/
def set_autocapitalization_type (value : PyValue) (s : TextInputState) :
    Except String TextInputState :=
  match value with
  | PyValue.str t =>
      if pyLower t = "none" then
        Except.ok
          { s with autocapitalizationType := UITextAutocapitalizationType.none }
      else if pyLower t = "words" then
        Except.ok
          { s with autocapitalizationType := UITextAutocapitalizationType.Words }
      else if pyLower t = "sentences" then
        Except.ok
          { s with autocapitalizationType :=
              UITextAutocapitalizationType.Sentences }
      else if pyLower t = "allcharacters" then
        Except.ok
          { s with autocapitalizationType :=
              UITextAutocapitalizationType.AllCharacters }
      else Except.error autocapMessage
  | _ => Except.error autocapMessage

/-- `TogaTextField.textFieldShouldReturn_`: forwards `on_confirm()` to
the interface and unconditionally reports the keypress as handled. -/
def textFieldShouldReturn (_textField : Unit) : List Event × Bool :=
  ([Event.onConfirm], true)

/-- `TogaTextField.textFieldDidBeginEditing_`: forwards
`on_gain_focus()`. -/
def textFieldDidBeginEditing (_textField : Unit) : List Event :=
  [Event.onGainFocus]

/-- `TogaTextField.textFieldDidEndEditing_`: forwards
`on_lose_focus()`. -/
def textFieldDidEndEditing (_textField : Unit) : List Event :=
  [Event.onLoseFocus]

end TextInput

/-- State of the multi-line adapter: the native UITextView fields the
code touches, the custom placeholder UILabel (its optional text and its
hidden flag), and the externally tracked focus flag.

Modelled from the spec: the `has_focus` flag read by `set_value` is
maintained by the base `Widget` class of this repository, which is not
under src/; per the spec it reflects whether the control currently has
focus, so it becomes true on begin-editing and false on end-editing. -/
structure MultilineState where
  text : String
  placeholderText : Option String
  placeholderHidden : Bool
  hasFocus : Bool
  autocorrectionType : UITextAutocorrectionType
  spellCheckingType : UITextSpellCheckingType
  autocapitalizationType : UITextAutocapitalizationType
deriving DecidableEq

/-- Python's str() applied to an optional string: an absent value (None)
renders as the string "None". -/
def pyStr : Option String → String
  | Option.none => "None"
  | Option.some t => t

namespace MultilineTextInput

/-- `MultilineTextInput.create`: fresh UITextView (empty text, no focus,
default Sentences autocapitalization), a fresh placeholder UILabel whose
text is nil and which is not hidden, autocorrect and spellcheck forced
on. -/
def create : MultilineState :=
  { text := ""
  , placeholderText := Option.none
  , placeholderHidden := false
  , hasFocus := false
  , autocorrectionType := UITextAutocorrectionType.Yes
  , spellCheckingType := UITextSpellCheckingType.Yes
  , autocapitalizationType := UITextAutocapitalizationType.Sentences }

/-- `MultilineTextInput.get_placeholder`:
`str(self.placeholder_label.text)` — no absent-to-empty normalization,
a nil label text stringifies to "None". -/
def get_placeholder (s : MultilineState) : String := pyStr s.placeholderText

/-- `MultilineTextInput.set_placeholder`: assigns the label text. -/
def set_placeholder (value : String) (s : MultilineState) : MultilineState :=
  { s with placeholderText := Option.some value }

/-- `MultilineTextInput.get_value`: `str(self.native.text)`. -/
def get_value (s : MultilineState) : String := s.text

/-- `MultilineTextInput.set_value`: assigns the native text, recomputes
the placeholder visibility from `self.has_focus or len(text) > 0`, then
calls `on_change()` once. -/
def set_value (value : String) (s : MultilineState) :
    MultilineState × List Event :=
  let s1 := { s with text := value }
  ({ s1 with placeholderHidden :=
        s1.hasFocus || decide (0 < s1.text.length) },
   [Event.onChange])

/-- `MultilineTextInput.scroll_to_bottom` builds
`NSRange(len(self.native.text) - 1, 1)`; the pair is modelled at the
Python integer level, before any native unsigned coercion. -/
def scroll_to_bottom_range (s : MultilineState) : Int × Int :=
  ((s.text.length : Int) - 1, 1)

/-- `MultilineTextInput.scroll_to_top` builds `NSRange(0, 0)`. -/
def scroll_to_top_range (_s : MultilineState) : Int × Int := (0, 0)

/-- `TogaMultilineTextView.textViewDidBeginEditing_`: hides the
placeholder label. -/
def textViewDidBeginEditing (s : MultilineState) : MultilineState :=
  { s with placeholderHidden := true }

/-- `TogaMultilineTextView.textViewDidEndEditing_`: the placeholder is
hidden exactly when `len(text_view.text) > 0`. -/
def textViewDidEndEditing (s : MultilineState) : MultilineState :=
  { s with placeholderHidden := decide (0 < s.text.length) }

/-- `TogaMultilineTextView.textViewDidChange_`: forwards `on_change()`. -/
def textViewDidChange (_textView : Unit) : List Event := [Event.onChange]

/-- `MultilineTextInput.set_autocorrect`: bool maps to Yes/No, anything
else raises ValueError. -/
def set_autocorrect (value : PyValue) (s : MultilineState) :
    Except String MultilineState :=
  match value with
  | PyValue.bool b =>
      if b then
        Except.ok { s with autocorrectionType := UITextAutocorrectionType.Yes }
      else
        Except.ok { s with autocorrectionType := UITextAutocorrectionType.No }
  | _ => Except.error boolMessage

/-- `MultilineTextInput.get_autocorrect`: true iff the setting is Yes. -/
def get_autocorrect (s : MultilineState) : Bool :=
  if s.autocorrectionType = UITextAutocorrectionType.Yes then true else false

/-- `MultilineTextInput.set_spellchecker`: bool maps to Yes/No, anything
else raises ValueError. -/
def set_spellchecker (value : PyValue) (s : MultilineState) :
    Except String MultilineState :=
  match value with
  | PyValue.bool b =>
      if b then
        Except.ok { s with spellCheckingType := UITextSpellCheckingType.Yes }
      else
        Except.ok { s with spellCheckingType := UITextSpellCheckingType.No }
  | _ => Except.error boolMessage

/-- `MultilineTextInput.get_spellchecker`: true iff the setting is
Yes. -/
def get_spellchecker (s : MultilineState) : Bool :=
  if s.spellCheckingType = UITextSpellCheckingType.Yes then true else false

/-- `MultilineTextInput.set_autocapitalization_type`: identical logic to
the single-line adapter. -/
def set_autocapitalization_type (value : PyValue) (s : MultilineState) :
    Except String MultilineState :=
  match value with
  | PyValue.str t =>
      if pyLower t = "none" then
        Except.ok
          { s with autocapitalizationType := UITextAutocapitalizationType.none }
      else if pyLower t = "words" then
        Except.ok
          { s with autocapitalizationType := UITextAutocapitalizationType.Words }
      else if pyLower t = "sentences" then
        Except.ok
          { s with autocapitalizationType :=
              UITextAutocapitalizationType.Sentences }
      else if pyLower t = "allcharacters" then
        Except.ok
          { s with autocapitalizationType :=
              UITextAutocapitalizationType.AllCharacters }
      else Except.error autocapMessage
  | _ => Except.error autocapMessage

end MultilineTextInput

/-- The operations on the multi-line adapter whose interleavings claim
C1 quantifies over: simulated begin-editing, simulated end-editing, and
`set_value`. -/
inductive MLOp where
  | beginEditing
  | endEditing
  | setValue (v : String)
deriving DecidableEq

/-- One operation on the multi-line adapter. The focus transitions come
from the base Widget (not under src/): modelled from the spec,
begin-editing gains focus and end-editing loses it; the delegate
callbacks from the source then update the placeholder label. -/
def mlStep (s : MultilineState) : MLOp → MultilineState
  | MLOp.beginEditing =>
      MultilineTextInput.textViewDidBeginEditing { s with hasFocus := true }
  | MLOp.endEditing =>
      MultilineTextInput.textViewDidEndEditing { s with hasFocus := false }
  | MLOp.setValue v => (MultilineTextInput.set_value v s).1

/-- Run a sequence of operations from the freshly created adapter. -/
def mlRun (ops : List MLOp) : MultilineState :=
  ops.foldl mlStep MultilineTextInput.create

/-- The placeholder overlay is visible iff its label is not hidden. -/
def placeholderVisible (s : MultilineState) : Bool := !s.placeholderHidden

/-- The C1 invariant: placeholder visibility equals
(text is empty) AND (not focused). -/
def placeholderInv (s : MultilineState) : Prop :=
  placeholderVisible s = (decide (s.text = "") && !s.hasFocus)

/-! Helper lemmas. -/

/-- A string has length zero exactly when it is the empty string. -/
theorem string_length_eq_zero_iff (t : String) : t.length = 0 ↔ t = "" := by
  constructor
  · intro h
    cases t with
    | mk data =>
      have hd : data = [] := List.length_eq_zero.mp h
      subst hd
      rfl
  · intro h
    subst h
    rfl

/-- Boolean bridge between "length is not positive" and "is empty". -/
theorem not_pos_length_eq_empty (t : String) :
    (!decide (0 < t.length)) = decide (t = "") := by
  by_cases h : t = ""
  · subst h
    simp
  · have hl : t.length ≠ 0 := fun h0 => h ((string_length_eq_zero_iff t).mp h0)
    have hp : 0 < t.length := Nat.pos_of_ne_zero hl
    simp [h, hp]

/-- The C1 invariant holds on the freshly created multi-line adapter. -/
theorem placeholderInv_create : placeholderInv MultilineTextInput.create := by
  simp [placeholderInv, placeholderVisible, MultilineTextInput.create]

/-- Every single operation re-establishes the C1 invariant, whatever the
incoming state. -/
theorem placeholderInv_step (s : MultilineState) (op : MLOp) :
    placeholderInv (mlStep s op) := by
  cases op with
  | beginEditing =>
      simp [mlStep, MultilineTextInput.textViewDidBeginEditing,
        placeholderInv, placeholderVisible]
  | endEditing =>
      simp [mlStep, MultilineTextInput.textViewDidEndEditing,
        placeholderInv, placeholderVisible, not_pos_length_eq_empty]
  | setValue v =>
      simp [mlStep, MultilineTextInput.set_value, placeholderInv,
        placeholderVisible, Bool.not_or, not_pos_length_eq_empty,
        Bool.and_comm]

/-- Folding any operation list preserves the C1 invariant. -/
theorem placeholderInv_foldl (ops : List MLOp) :
    ∀ s : MultilineState, placeholderInv s →
      placeholderInv (ops.foldl mlStep s) := by
  induction ops with
  | nil => exact fun s h => h
  | cons op rest ih => exact fun s _ => ih (mlStep s op) (placeholderInv_step s op)

/-- Success predicate of `set_autocapitalization_type` as the claim
states it: a str whose case-insensitive form is one of the four accepted
names. -/
def validAutocap : PyValue → Bool
  | PyValue.str t =>
      decide (pyLower t = "none") || decide (pyLower t = "words")
        || decide (pyLower t = "sentences")
        || decide (pyLower t = "allcharacters")
  | _ => false

/-! Claim theorems. -/

/-- C1: on the multi-line adapter the placeholder overlay's visibility
always equals (text value is empty) AND (not focused), for every
sequence of create / begin-editing / end-editing / set_value; it is
visible immediately after create, hidden by begin-editing, set on
end-editing to visible iff the text is empty, and recomputed by
set_value from the current focus flag and the new text. -/
theorem ml_placeholder_visibility :
    (∀ ops : List MLOp, placeholderInv (mlRun ops))
    ∧ placeholderVisible MultilineTextInput.create = true
    ∧ (∀ s, placeholderVisible
        (MultilineTextInput.textViewDidBeginEditing s) = false)
    ∧ (∀ s, placeholderVisible (MultilineTextInput.textViewDidEndEditing s)
        = decide (s.text = ""))
    ∧ (∀ s v, placeholderVisible (MultilineTextInput.set_value v s).1
        = (decide (v = "") && !s.hasFocus)) := by
  refine ⟨?_, rfl, fun s => rfl, ?_, ?_⟩
  · exact fun ops => placeholderInv_foldl ops _ placeholderInv_create
  · intro s
    simp [MultilineTextInput.textViewDidEndEditing, placeholderVisible,
      not_pos_length_eq_empty]
  · intro s v
    simp [MultilineTextInput.set_value, placeholderVisible, Bool.not_or,
      not_pos_length_eq_empty, Bool.and_comm]

/-- C2: `set_value s` on either adapter emits exactly one change
notification (the interface value-changed hook on the single-line
adapter, on_change on the multi-line one) and a subsequent `get_value`
returns s. -/
theorem set_value_single_change :
    ∀ (v : String) (s : TextInputState) (m : MultilineState),
      (TextInput.set_value v s).2 = [Event.valueChanged]
      ∧ TextInput.get_value (TextInput.set_value v s).1 = v
      ∧ (MultilineTextInput.set_value v m).2 = [Event.onChange]
      ∧ MultilineTextInput.get_value (MultilineTextInput.set_value v m).1 = v :=
  fun _ _ _ => ⟨rfl, rfl, rfl, rfl⟩

/-- C3: after `set_text_align a` on the single-line adapter, the error
indicator label's alignment is LEFT if a is RIGHT and RIGHT for every
other alignment value. -/
theorem set_text_align_mirrors :
    ∀ (a : TextAlign) (s : TextInputState),
      ((TextInput.set_text_align a s).errorAlignment
        = if a = TextAlign.right then TextAlign.left else TextAlign.right)
      ∧ (TextInput.set_text_align a s).textAlignment = a :=
  fun _ _ => ⟨rfl, rfl⟩

/-- C4: on either adapter `set_autocapitalization_type v` succeeds
exactly when v is a str whose case-insensitive form is one of "none",
"words", "sentences", "allcharacters"; any other value fails with the
message naming the accepted values (and, the result being an error, the
native setting is unchanged). -/
theorem autocap_domain :
    ∀ (v : PyValue) (s : TextInputState) (m : MultilineState),
      okB (TextInput.set_autocapitalization_type v s) = validAutocap v
      ∧ okB (MultilineTextInput.set_autocapitalization_type v m) = validAutocap v
      ∧ (validAutocap v = false →
          TextInput.set_autocapitalization_type v s
            = Except.error autocapMessage
          ∧ MultilineTextInput.set_autocapitalization_type v m
            = Except.error autocapMessage) := by
  intro v s m
  cases v with
  | bool b => exact ⟨rfl, rfl, fun _ => ⟨rfl, rfl⟩⟩
  | other => exact ⟨rfl, rfl, fun _ => ⟨rfl, rfl⟩⟩
  | str t =>
      by_cases h1 : pyLower t = "none" <;>
        by_cases h2 : pyLower t = "words" <;>
          by_cases h3 : pyLower t = "sentences" <;>
            by_cases h4 : pyLower t = "allcharacters" <;>
              simp [TextInput.set_autocapitalization_type,
                MultilineTextInput.set_autocapitalization_type,
                validAutocap, okB, h1, h2, h3, h4]

/-- C4 witness: "bogus" is rejected with the accepted-values message. -/
theorem autocap_domain_witness :
    validAutocap (PyValue.str "bogus") = false
    ∧ TextInput.set_autocapitalization_type (PyValue.str "bogus")
        TextInput.create = Except.error autocapMessage :=
  ⟨by decide,
   ((autocap_domain (PyValue.str "bogus") TextInput.create
      MultilineTextInput.create).2.2 (by decide)).1⟩

/-- C5: for every boolean b and either adapter, setting autocorrect or
spellchecker to b and reading it back returns b; both setters fail with
the invalid-argument message on any non-boolean value. -/
theorem bool_flag_roundtrip :
    ∀ (b : Bool) (s : TextInputState) (m : MultilineState) (v : PyValue),
      (∃ s', TextInput.set_autocorrect (PyValue.bool b) s = Except.ok s'
          ∧ TextInput.get_autocorrect s' = b)
      ∧ (∃ s', TextInput.set_spellchecker (PyValue.bool b) s = Except.ok s'
          ∧ TextInput.get_spellchecker s' = b)
      ∧ (∃ m', MultilineTextInput.set_autocorrect (PyValue.bool b) m
            = Except.ok m'
          ∧ MultilineTextInput.get_autocorrect m' = b)
      ∧ (∃ m', MultilineTextInput.set_spellchecker (PyValue.bool b) m
            = Except.ok m'
          ∧ MultilineTextInput.get_spellchecker m' = b)
      ∧ (isPyBool v = false →
          TextInput.set_autocorrect v s = Except.error boolMessage
          ∧ TextInput.set_spellchecker v s = Except.error boolMessage
          ∧ MultilineTextInput.set_autocorrect v m = Except.error boolMessage
          ∧ MultilineTextInput.set_spellchecker v m
              = Except.error boolMessage) := by
  intro b s m v
  refine ⟨?_, ?_, ?_, ?_, ?_⟩
  · cases b <;> exact ⟨_, rfl, rfl⟩
  · cases b <;> exact ⟨_, rfl, rfl⟩
  · cases b <;> exact ⟨_, rfl, rfl⟩
  · cases b <;> exact ⟨_, rfl, rfl⟩
  · intro h
    cases v with
    | bool c => simp [isPyBool] at h
    | str t => exact ⟨rfl, rfl, rfl, rfl⟩
    | other => exact ⟨rfl, rfl, rfl, rfl⟩

/-- C5 witness: a non-boolean value is rejected by the boolean flag
setters. -/
theorem bool_flag_roundtrip_witness :
    isPyBool PyValue.other = false
    ∧ TextInput.set_autocorrect PyValue.other TextInput.create
        = Except.error boolMessage :=
  ⟨rfl,
   ((bool_flag_roundtrip true TextInput.create MultilineTextInput.create
      PyValue.other).2.2.2.2 rfl).1⟩

/-- C6: on the single-line adapter, after `set_error m` (any message,
including the empty string) `is_valid` is false; after `clear_error`,
`is_valid` is true; the message argument has no effect on the resulting
state. -/
theorem error_toggle :
    ∀ (s : TextInputState) (msg msg2 : String),
      TextInput.is_valid (TextInput.set_error msg s) = false
      ∧ TextInput.is_valid (TextInput.clear_error s) = true
      ∧ TextInput.set_error msg s = TextInput.set_error msg2 s :=
  fun _ _ _ => ⟨rfl, rfl, rfl⟩

/-- C7: on the single-line adapter `set_placeholder ""` stores an absent
native value (UIKit collapses the empty string) and `get_placeholder`
normalizes it back to the empty string, so the round trip holds. -/
theorem placeholder_empty_roundtrip :
    ∀ s : TextInputState,
      (TextInput.set_placeholder "" s).placeholder = Option.none
      ∧ TextInput.get_placeholder (TextInput.set_placeholder "" s) = "" :=
  fun _ => ⟨rfl, rfl⟩

/-- C8: the single-line return-key callback forwards exactly one
`on_confirm` to the interface and unconditionally reports the keypress
as handled. -/
theorem return_key_handled :
    ∀ u : Unit,
      (TextInput.textFieldShouldReturn u).2 = true
      ∧ (TextInput.textFieldShouldReturn u).1 = [Event.onConfirm] :=
  fun _ => ⟨rfl, rfl⟩

/-- C9: `scroll_to_bottom` builds its range starting at
`len(text) - 1`; that start is non-negative exactly when the text is
non-empty, and is -1 on the empty text. -/
theorem scroll_to_bottom_precondition :
    ∀ m : MultilineState,
      (MultilineTextInput.scroll_to_bottom_range m).1
        = (m.text.length : Int) - 1
      ∧ (0 ≤ (MultilineTextInput.scroll_to_bottom_range m).1 ↔ m.text ≠ "")
      ∧ (m.text = "" →
          (MultilineTextInput.scroll_to_bottom_range m).1 = -1) := by
  intro m
  have hlen : (MultilineTextInput.scroll_to_bottom_range m).1
      = (m.text.length : Int) - 1 := rfl
  refine ⟨hlen, ?_, ?_⟩
  · have hne : m.text ≠ "" ↔ m.text.length ≠ 0 :=
      not_congr (string_length_eq_zero_iff m.text).symm
    rw [hlen, hne]
    omega
  · intro h
    rw [hlen, h]
    rfl

/-- C9 witness: on the freshly created adapter the text is empty and the
range start is -1. -/
theorem scroll_to_bottom_precondition_witness :
    MultilineTextInput.create.text = ""
    ∧ (MultilineTextInput.scroll_to_bottom_range MultilineTextInput.create).1
        = -1 :=
  ⟨rfl, (scroll_to_bottom_precondition MultilineTextInput.create).2.2 rfl⟩

/-- C10: the multi-line `get_placeholder` stringifies the label text
without absent-to-empty normalization: right after `create` (label text
still nil) it returns "None", not the empty string, unlike the
single-line adapter which returns "". -/
theorem ml_placeholder_not_normalized :
    MultilineTextInput.get_placeholder MultilineTextInput.create = "None"
    ∧ MultilineTextInput.get_placeholder MultilineTextInput.create ≠ ""
    ∧ TextInput.get_placeholder TextInput.create = ""
    ∧ (∀ m : MultilineState,
        MultilineTextInput.get_placeholder m = pyStr m.placeholderText) := by
  refine ⟨rfl, ?_, rfl, fun m => rfl⟩
  decide
